import Mathlib

/-!
Shallow embedding of `postmodel/sqldb/postgres.py`: the pooled-transaction
context manager, the transacted-connection registry, the connection router,
the pool lifecycle manager and the query-execution surface, together with the
error-translation decorator.

Async effects are made explicit: every driver interaction (pool acquisition,
transaction start/commit/rollback, statement execution) is either threaded as
explicit state or supplied as an oracle parameter describing what the driver
returned or raised at that call site.  Emitted `Event` lists record the order
of externally visible actions so ordering claims can be stated.
-/

namespace Postmodel

/-- Exceptions raised by the asyncpg driver, as the classes the code under
verification distinguishes: `SyntaxOrAccessError` (modelled as
`synOrAccessError`), `IntegrityConstraintViolationError`,
`InvalidTransactionStateError`, `InvalidCatalogNameError`, and any other
driver exception.  Each carries its message (Python `str(exc)`). -/
inductive DriverExc where
  | synOrAccessError (msg : String)
  | integrityConstraintViolationError (msg : String)
  | invalidTransactionStateError (msg : String)
  | invalidCatalogNameError (msg : String)
  | otherError (msg : String)
deriving DecidableEq, Repr

/-- Python `str(exc)` for a driver exception. -/
def DriverExc.msg : DriverExc → String
  | .synOrAccessError m => m
  | .integrityConstraintViolationError m => m
  | .invalidTransactionStateError m => m
  | .invalidCatalogNameError m => m
  | .otherError m => m

/-- Exceptions observable by callers of this module: the four taxonomy
members from `postmodel.exceptions`, the plain built-in `Exception(msg)`
(`generic`), the built-in `AttributeError` (`attributeError`), and an
untranslated driver exception propagating unchanged (`driver`). -/
inductive PyExc where
  | operationalError (msg : String)
  | integrityError (msg : String)
  | transactionManagementError (msg : String)
  | dbConnectionError (msg : String)
  | generic (msg : String)
  | attributeError (msg : String)
  | driver (e : DriverExc)
deriving DecidableEq, Repr

/-- Holds (as `true`) exactly for the `TransactionManagementError` taxonomy member. -/
def PyExc.isTxnManagementError : PyExc → Bool
  | .transactionManagementError _ => true
  | _ => false

/-- The decorator `translate_exceptions` (postgres.py lines 16-28): wraps one driver call,
re-raising `asyncpg.SyntaxOrAccessError` as `OperationalError`,
`asyncpg.IntegrityConstraintViolationError` as `IntegrityError`, and
`asyncpg.InvalidTransactionStateError` as `TransactionManagementError`;
any other exception falls through the `try` unhandled and propagates
unchanged. -/
def translate_exceptions {α : Type} (r : Except DriverExc α) : Except PyExc α :=
  match r with
  | .ok a => .ok a
  | .error (.synOrAccessError m) => .error (.operationalError m)
  | .error (.integrityConstraintViolationError m) => .error (.integrityError m)
  | .error (.invalidTransactionStateError m) => .error (.transactionManagementError m)
  | .error e => .error (.driver e)

/-- The single-exception translation table implied by `translate_exceptions`. -/
def translateErr (e : DriverExc) : PyExc :=
  match e with
  | .synOrAccessError m => .operationalError m
  | .integrityConstraintViolationError m => .integrityError m
  | .invalidTransactionStateError m => .transactionManagementError m
  | e => .driver e

/-- Modelled from the spec: the Transacted-Connection Registry
(`TransactedConnections` in `postmodel/sqldb/base.py`, a file not under
`src/`).  Per spec §4.2 it is a context-scoped map from logical database
name to the bound transacted-connection handle: `get` returns the binding or
none and never raises (the source wraps the underlying lookup in
`try/except`, see `_current_transacted_conn`), `set` returns a restore
token, and `reset` restores the prior value.  Handles are modelled as
connection identifiers (`Nat`). -/
structure Registry where
  binding : String → Option Nat

/-- Registry lookup: the current binding for a logical name, or none. -/
def Registry.get (r : Registry) (name : String) : Option Nat :=
  r.binding name

/-- Registry bind: sets the binding for `name` and returns the restore token,
which records the previous binding so `reset` can restore it. -/
def Registry.set (r : Registry) (name : String) (conn : Nat) :
    Registry × Option Nat :=
  (⟨fun n => if n = name then some conn else r.binding n⟩, r.binding name)

/-- Registry unbind: restores the binding recorded in the token. -/
def Registry.reset (r : Registry) (name : String) (token : Option Nat) : Registry :=
  ⟨fun n => if n = name then token else r.binding n⟩

/-- The empty registry: no logical name is bound. -/
def Registry.empty : Registry := ⟨fun _ => none⟩

/-- Externally visible actions of the pooled transaction context, emitted in
program order so that ordering properties can be stated. -/
inductive Event where
  | poolAcquire (conn : Nat)
  | txnCreate (conn : Nat)
  | wrapProxy (conn : Nat)
  | registrySet (name : String) (conn : Nat)
  | txnStart (conn : Nat)
  | txnCommit (conn : Nat)
  | txnRollback (conn : Nat)
  | markDone
  | clearConnection
  | registryReset (name : String)
  | poolRelease (conn : Nat)
deriving DecidableEq, Repr

/-- State of `PooledTransactionContext` (postgres.py lines 31-41): the
`__slots__` fields.  `connection`/`transaction` are the acquired connection
(None before enter, cleared on normal exit); `token` is the registry restore
token, unset until `__aenter__` assigns it; `done` marks a used context.
The pool is modelled by the identifier of the connection it will hand out,
supplied as an oracle argument to `aenter`. -/
structure PooledTransactionContext where
  name : String
  timeout : Option Nat
  connection : Option Nat
  transaction : Option Nat
  done : Bool
  token : Option (Option Nat)
deriving DecidableEq, Repr

/-- Constructor `PooledTransactionContext.__init__` (lines 35-41). -/
def PooledTransactionContext.mk0 (name : String) (timeout : Option Nat) :
    PooledTransactionContext :=
  { name := name, timeout := timeout, connection := none,
    transaction := none, done := false, token := none }

/-- Modelled from the spec: `TransactedConnectionProxy` (in
`postmodel/sqldb/base.py`, not under `src/`) wraps the raw connection while
flagging it as already transacted; modelled as the wrapped connection id
plus that flag. -/
structure TransactedConnectionProxy where
  conn : Nat
  transacted : Bool
deriving DecidableEq, Repr

/-- Enter step `PooledTransactionContext.__aenter__` (lines 43-51).  `acquired` is the
connection the pool's `_acquire` hands out.  On success returns the updated
context, the updated registry, the proxy given to the `async with` body, and
the ordered list of actions performed. -/
def aenter (ctx : PooledTransactionContext) (reg : Registry) (acquired : Nat) :
    Except PyExc (PooledTransactionContext × Registry × TransactedConnectionProxy × List Event) :=
  if ctx.connection.isSome || ctx.done then
    .error (.generic "a connection is already acquired")
  else
    let proxy : TransactedConnectionProxy := ⟨acquired, true⟩
    let st := reg.set ctx.name acquired
    .ok ({ ctx with connection := some acquired, transaction := some acquired,
                    token := some st.2 },
         st.1, proxy,
         [.poolAcquire acquired, .txnCreate acquired, .wrapProxy acquired,
          .registrySet ctx.name acquired, .txnStart acquired])

/-- Result of `__aexit__`: the exception the caller of the `async with`
block observes (none when the block completes cleanly), the context and
registry afterwards, and the ordered list of actions performed. -/
structure ExitOutcome where
  propagated : Option PyExc
  ctx : PooledTransactionContext
  reg : Registry
  events : List Event

/-- Exit step `PooledTransactionContext.__aexit__` (lines 53-65).  `bodyExc` is the
exception the body raised (the `exc_type` argument), `rollbackExc` is what
`transaction.rollback()` raises if attempted, `commitExc` what
`transaction.commit()` raises if attempted.  If the body raised, rollback is
attempted inside `try: ... except: pass`, so `rollbackExc` is swallowed and
the body's exception propagates.  If the body completed, `commit()` is
awaited outside any `try`: when it raises, the commit exception propagates
at that line and none of the remaining statements (mark done, clear the
connection, registry reset, pool release) run. -/
def aexit (ctx : PooledTransactionContext) (reg : Registry)
    (bodyExc : Option PyExc) (rollbackExc : Option PyExc)
    (commitExc : Option PyExc) : ExitOutcome :=
  let c := ctx.connection.getD 0
  let teardown : PooledTransactionContext × Registry × List Event :=
    ({ ctx with done := true, connection := none },
     reg.reset ctx.name (ctx.token.getD none),
     [.markDone, .clearConnection, .registryReset ctx.name, .poolRelease c])
  match bodyExc with
  | some e =>
      { propagated := some e, ctx := teardown.1, reg := teardown.2.1,
        events := .txnRollback c :: teardown.2.2 }
  | none =>
      match commitExc with
      | some ce =>
          { propagated := some ce, ctx := ctx, reg := reg,
            events := [.txnCommit c] }
      | none =>
          { propagated := none, ctx := teardown.1, reg := teardown.2.1,
            events := .txnCommit c :: teardown.2.2 }

/-- State of `PostgresEngine`, restricted to the fields the verified claims
depend on (postgres.py lines 76-99): the logical database name registered
with `Postmodel`, the configured user and database, and the lazily created
pool (`_pool`), modelled as an optional pool identifier. -/
structure PostgresEngine where
  name : String
  user : String
  database : String
  pool : Option Nat
deriving DecidableEq, Repr

/-- Method `PostgresEngine._current_transacted_conn` (lines 152-156): look up the
registry binding for this engine's logical name; a lookup failure (the
underlying context variable being unset) is caught and yields `None`. -/
def currentTransactedConn (e : PostgresEngine) (reg : Registry) : Option Nat :=
  reg.get e.name

/-- Method `PostgresEngine.in_transaction` (lines 145-150).  If the registry already
binds this logical name, raises the built-in `Exception('nested
in_transaction not allowed.')`; otherwise returns a fresh
`PooledTransactionContext` over the engine's pool with no timeout.  The
registry is returned unchanged in both cases: `in_transaction` never writes
to it. -/
def in_transaction (e : PostgresEngine) (reg : Registry) :
    Except PyExc PooledTransactionContext × Registry :=
  match currentTransactedConn e reg with
  | some _ => (.error (.generic "nested in_transaction not allowed."), reg)
  | none => (.ok (PooledTransactionContext.mk0 e.name none), reg)

/-- Outcome of `PostgresEngine.db_create` (lines 128-134): the returned or
raised value, plus whether the bootstrap connection opened at the top of the
function was closed before control left the function. -/
structure DbCreateResult where
  result : Except PyExc Unit
  connClosed : Bool

/-- The SQL text `db_create` submits on the bootstrap connection. -/
def createDatabaseSql (database user : String) : String :=
  "CREATE DATABASE \"" ++ database ++ "\" OWNER \"" ++ user ++ "\""

/-- Method `PostgresEngine.db_create` (lines 128-134).  `exec` is the bootstrap
connection's `execute`: statement text to driver outcome.  On any failure of
the CREATE DATABASE statement, raises `OperationalError` with a message
naming the database and embedding `str(e)`; the `await conn.close()` sits
after the `try` block, so it runs only when no exception was raised. -/
def db_create (e : PostgresEngine) (exec : String → Except DriverExc String) :
    DbCreateResult :=
  match exec (createDatabaseSql e.database e.user) with
  | .ok _ => { result := .ok (), connClosed := true }
  | .error exc =>
      { result := .error (.operationalError
          ("create database " ++ e.database ++ ", error: " ++ exc.msg)),
        connClosed := false }

/-- Method `PostgresEngine._create_pool` (lines 105-115).  `firstAttempt` and
`retryAttempt` are the outcomes of the two possible `asyncpg.create_pool`
calls (a created pool is its identifier); `exec` is the bootstrap
connection's `execute` used by `db_create`.  Control flow of the source:

* an existing pool returns immediately;
* `except asyncpg.InvalidCatalogNameError`: when `create_db` is true, run
  `db_create` (whose `OperationalError` would propagate) and retry pool
  creation once, a retry failure propagating as the raw driver exception;
  when `create_db` is false this handler does nothing, so the exception is
  swallowed and the pool stays unset;
* the final bare `except` turns any other first-attempt failure into
  `DBConnectionError` naming the database. -/
def _create_pool (e : PostgresEngine) (create_db : Bool)
    (firstAttempt : Except DriverExc Nat)
    (exec : String → Except DriverExc String)
    (retryAttempt : Except DriverExc Nat) : Except PyExc PostgresEngine :=
  if e.pool.isSome then .ok e
  else
    match firstAttempt with
    | .ok p => .ok { e with pool := some p }
    | .error (.invalidCatalogNameError _) =>
        if create_db then
          match (db_create e exec).result with
          | .error exc => .error exc
          | .ok _ =>
              match retryAttempt with
              | .ok p => .ok { e with pool := some p }
              | .error exc => .error (.driver exc)
        else .ok e
    | .error _ =>
        .error (.dbConnectionError
          ("Can't establish connection to database " ++ e.database))

/-- What `PostgresEngine.acquire_connection` hands back: a
`TransactedConnectionWrapper` over the registry's bound connection, or the
pool's own scoped-acquisition handle. -/
inductive AcquiredConn where
  | transactedWrapper (conn : Nat)
  | pooled (pool : Nat) (timeout : Option Nat)
deriving DecidableEq, Repr

/-- Method `PostgresEngine.acquire_connection` (lines 158-165).  The source's
`if not self._pool: self._create_pool()` calls the async `_create_pool`
without `await`: that builds a coroutine object that is never scheduled, so
none of `_create_pool`'s body runs and `self._pool` is still unset
afterwards — the engine state is returned unchanged.  With a registry
binding present the wrapper over it is returned; otherwise
`self._pool.acquire(timeout=timeout)` is evaluated, which on an absent pool
is an attribute access on `None` and raises `AttributeError` before any
pool interaction. -/
def acquire_connection (e : PostgresEngine) (reg : Registry)
    (timeout : Option Nat) : Except PyExc AcquiredConn × PostgresEngine :=
  match currentTransactedConn e reg with
  | some c => (.ok (.transactedWrapper c), e)
  | none =>
      match e.pool with
      | some p => (.ok (.pooled p timeout), e)
      | none =>
          (.error (.attributeError
            "'NoneType' object has no attribute 'acquire'"), e)

/-- Helper for `pySplitOnSpace`: walk the characters, cutting at each
space; `acc` holds the current piece reversed. -/
def pySplitOnSpaceAux : List Char → List Char → List (List Char)
  | [], acc => [acc.reverse]
  | c :: rest, acc =>
      if c = ' ' then acc.reverse :: pySplitOnSpaceAux rest []
      else pySplitOnSpaceAux rest (c :: acc)

/-- Python `s.split(" ")`: split at every single space character, keeping
empty pieces (so `"a  b".split(" ")` is `["a", "", "b"]` and
`"".split(" ")` is `[""]`). -/
def pySplitOnSpace (s : String) : List String :=
  (pySplitOnSpaceAux s.data []).map fun cs => String.mk cs

/-- Helper for `pyInt`: fold decimal digits left to right; any non-digit
character fails the parse. -/
def pyDigitsAux : List Char → Nat → Option Nat
  | [], acc => some acc
  | c :: rest, acc =>
      if c.isDigit then pyDigitsAux rest (acc * 10 + (c.toNat - '0'.toNat))
      else none

/-- A nonempty all-decimal-digit sequence as a number. -/
def pyDigits : List Char → Option Nat
  | [] => none
  | cs => pyDigitsAux cs 0

/-- Python `int(tok)` on a status-string token: an optional sign followed by
one or more decimal digits; anything else raises `ValueError`, modelled as
`none`.  (Python's `int` additionally strips surrounding whitespace and
allows digit-group underscores; driver status tokens contain neither.) -/
def pyInt (tok : String) : Option Int :=
  match tok.data with
  | '-' :: rest => (pyDigits rest).map fun n => -(n : Int)
  | '+' :: rest => (pyDigits rest).map fun n => (n : Int)
  | cs => (pyDigits cs).map fun n => (n : Int)

/-- Python `s.startswith(pre)`: the characters of `pre` are a prefix of the
characters of `s`. -/
def pyStartsWith (s pre : String) : Bool :=
  pre.data.isPrefixOf s.data

/-- The affected-row count parse inside `execute_query` (lines 189-192):
`int(res.split(" ")[1])`, with any failure (missing second token or a token
`int()` rejects) caught and replaced by 0. -/
def parseRowsAffected (res : String) : Int :=
  match (pySplitOnSpace res).get? 1 with
  | none => 0
  | some tok =>
      match pyInt tok with
      | none => 0
      | some n => n

/-- The driver connection surface `execute_query` uses, supplied as oracles:
`executeStatus` is `Connection.execute` (returns the status string),
`fetchRows` is `Connection.fetch` (returns all result rows).  Each takes the
positional argument list the source builds (`[query, *values]` or
`[query]`). -/
structure DriverConn (Row : Type) where
  executeStatus : List String → String
  fetchRows : List String → List Row

/-- The `params` list built at lines 183-186: `values` is a Python optional
list argument, and `if values:` is false both for `None` and for an empty
list. -/
def execQueryParams (query : String) (values : Option (List String)) :
    List String :=
  match values with
  | some vs => if vs.isEmpty then [query] else query :: vs
  | none => [query]

/-- Result shaping of `PostgresEngine.execute_query` (lines 178-196), given a
connection whose driver calls succeed: statements whose text starts with the
literal `UPDATE` or `DELETE` are run via `execute` and return the parsed
affected-row count with an empty row list; every other statement is run via
`fetch` and returns the row count with the rows. -/
def execute_query {Row : Type} (conn : DriverConn Row) (query : String)
    (values : Option (List String)) : Int × List Row :=
  let params := execQueryParams query values
  if pyStartsWith query "UPDATE" || pyStartsWith query "DELETE" then
    let res := conn.executeStatus params
    (parseRowsAffected res, [])
  else
    let rows := conn.fetchRows params
    ((rows.length : Int), rows)

/-- The decorated `execute_query` (line 178): a driver exception raised at
either driver call inside the body (`failure`) crosses
`translate_exceptions`; otherwise the shaped result is returned. -/
def execute_query_op {Row : Type} (conn : DriverConn Row) (query : String)
    (values : Option (List String)) (failure : Option DriverExc) :
    Except PyExc (Int × List Row) :=
  translate_exceptions
    (match failure with
     | some exc => .error exc
     | none => .ok (execute_query conn query values))

/-- The decorated `execute_insert` (lines 167-170): one `fetchrow` call,
returning at most one row, wrapped by `translate_exceptions`. -/
def execute_insert {Row : Type} (fetchrow : Except DriverExc (Option Row)) :
    Except PyExc (Option Row) :=
  translate_exceptions fetchrow

/-- The decorated `execute_many` (lines 172-176): `executemany` inside its
own driver-level transaction on the acquired connection, wrapped by
`translate_exceptions`. -/
def execute_many (run : Except DriverExc Unit) : Except PyExc Unit :=
  translate_exceptions run

/-- The decorated `execute_query_dict` (lines 198-203): one `fetch` call
whose rows are each converted by `dict`, wrapped by
`translate_exceptions`. -/
def execute_query_dict {Row Dict : Type} (toDict : Row → Dict)
    (fetch : Except DriverExc (List Row)) : Except PyExc (List Dict) :=
  translate_exceptions (fetch.map (List.map toDict))

/-- The decorated `execute_script` (lines 205-208): one `execute` call with
no parameter binding, wrapped by `translate_exceptions`. -/
def execute_script (run : Except DriverExc String) : Except PyExc Unit :=
  translate_exceptions (run.map fun _ => ())

/-- Whether a call outcome is a raised `TransactionManagementError`. -/
def raisedTxnManagementError {α : Type} : Except PyExc α → Bool
  | .error e => e.isTxnManagementError
  | .ok _ => false

/-- Concrete registry binding the logical name "db" to connection 7, as
left by an open transaction context. -/
def regDb : Registry := ⟨fun n => if n = "db" then some 7 else none⟩

/-- Concrete engine for logical name "db" over database "test_db", with no
pool created yet. -/
def engNoPool : PostgresEngine :=
  { name := "db", user := "postgres", database := "test_db", pool := none }

/-- Concrete context in the active state: connection 7 held, transaction
open, registry token recorded, not yet done. -/
def ctxActive : PooledTransactionContext :=
  { name := "db", timeout := none, connection := some 7,
    transaction := some 7, done := false, token := some none }

/-- Concrete context in the done state: already exited. -/
def ctxDone : PooledTransactionContext :=
  { name := "db", timeout := none, connection := none,
    transaction := none, done := true, token := some none }

/-- C1 (counterexample): with the registry already binding the logical name,
`in_transaction` does fail immediately, but the exception it raises is the
plain built-in `Exception('nested in_transaction not allowed.')`, not a
TransactionManagementError-class error, refuting the claimed error class. -/
theorem in_transaction_nested_raises_plain_exception :
    (in_transaction engNoPool regDb).1
      = .error (.generic "nested in_transaction not allowed.") ∧
    raisedTxnManagementError (in_transaction engNoPool regDb).1 = false :=
  ⟨rfl, rfl⟩

/-- C1 (amended): for every engine and registry, if the registry already
holds a binding for the engine's logical name, `in_transaction` fails
immediately with the plain `Exception('nested in_transaction not
allowed.')`, and the registry — hence the existing context's binding — is
left unchanged. -/
theorem in_transaction_nested_guard (e : PostgresEngine) (reg : Registry)
    (h : (reg.get e.name).isSome = true) :
    (in_transaction e reg).1
      = .error (.generic "nested in_transaction not allowed.") ∧
    (in_transaction e reg).2 = reg := by
  cases hg : reg.get e.name with
  | none => rw [hg] at h; simp at h
  | some c =>
      constructor <;> simp [in_transaction, currentTransactedConn, hg]

/-- C1 (witness): the amended guard evaluated at a concrete engine and a
registry with "db" bound to connection 7. -/
theorem in_transaction_nested_guard_witness :
    (in_transaction engNoPool regDb).1
      = .error (.generic "nested in_transaction not allowed.") ∧
    (in_transaction engNoPool regDb).2 = regDb :=
  in_transaction_nested_guard engNoPool regDb (by decide)

/-- C7: for every context exit whose body raised `e`, rollback is attempted
(the rollback event is emitted) and the outcome seen by the caller is `e`
itself whatever the rollback raised; for every exit whose body completed
normally, the caller sees exactly the commit outcome, so a commit failure
propagates and is never suppressed. -/
theorem aexit_rollback_swallowed_commit_propagates
    (ctx : PooledTransactionContext) (reg : Registry)
    (rollbackExc commitExc : Option PyExc) (e : PyExc) :
    (aexit ctx reg (some e) rollbackExc commitExc).propagated = some e ∧
    Event.txnRollback (ctx.connection.getD 0)
      ∈ (aexit ctx reg (some e) rollbackExc commitExc).events ∧
    (aexit ctx reg none rollbackExc commitExc).propagated = commitExc := by
  refine ⟨rfl, ?_, ?_⟩
  · simp [aexit]
  · cases commitExc <;> rfl

/-- C9: a pooled transaction context is single-use.  Entering a context that
already holds a connection (active) or is already done raises the internal
error; every successful enter leaves the context holding a connection
(so a second enter fails); and after any exit of an active context the
context again holds a connection or is marked done (so re-entry after exit
fails). -/
theorem context_single_use (ctx : PooledTransactionContext) (reg : Registry)
    (c : Nat) (h : ctx.connection.isSome = true ∨ ctx.done = true) :
    aenter ctx reg c = .error (.generic "a connection is already acquired") ∧
    (∀ (ctxI : PooledTransactionContext) (regI : Registry) (cI : Nat) out,
       aenter ctxI regI cI = .ok out → out.1.connection.isSome = true) ∧
    (∀ (ctxA : PooledTransactionContext) (regA : Registry)
       (b rb ce : Option PyExc), ctxA.connection.isSome = true →
       ((aexit ctxA regA b rb ce).ctx.connection.isSome = true ∨
        (aexit ctxA regA b rb ce).ctx.done = true)) := by
  refine ⟨?_, ?_, ?_⟩
  · unfold aenter
    rcases h with h | h <;> simp [h]
  · intro ctxI regI cI out hok
    unfold aenter at hok
    split at hok
    · exact absurd hok (by simp)
    · simp only [Except.ok.injEq] at hok
      subst hok
      rfl
  · intro ctxA regA b rb ce hA
    cases b with
    | some e => right; rfl
    | none =>
      cases ce with
      | some ce' => left; exact hA
      | none => right; rfl

/-- C9 (witness): entering an already-done concrete context fails with the
internal reuse error. -/
theorem context_single_use_witness :
    aenter ctxDone Registry.empty 5
      = .error (.generic "a connection is already acquired") :=
  (context_single_use ctxDone Registry.empty 5 (Or.inr rfl)).1

/-- C10: for every engine and bootstrap-execute outcome, when the CREATE
DATABASE statement fails with driver exception `exc`, `db_create` raises
`OperationalError` whose message names the database and embeds the driver
message, and the bootstrap connection is left unclosed; when the statement
succeeds, no error is raised and the connection is closed. -/
theorem db_create_failure_behavior (e : PostgresEngine)
    (exec : String → Except DriverExc String) :
    (∀ exc, exec (createDatabaseSql e.database e.user) = .error exc →
       db_create e exec = ⟨.error (.operationalError
         ("create database " ++ e.database ++ ", error: " ++ exc.msg)),
         false⟩) ∧
    (∀ s, exec (createDatabaseSql e.database e.user) = .ok s →
       db_create e exec = ⟨.ok (), true⟩) := by
  constructor
  · intro exc hx
    unfold db_create
    rw [hx]
  · intro s hx
    unfold db_create
    rw [hx]

/-- Bootstrap-execute oracle on which every statement fails with a fixed
driver error. -/
def execFailOracle : String → Except DriverExc String :=
  fun _ => .error (.otherError "permission denied to create database")

/-- C10 (witness): `db_create` evaluated on a concrete engine whose CREATE
DATABASE statement fails: the OperationalError names the database and wraps
the driver message, and the connection-closed flag is false. -/
theorem db_create_failure_behavior_witness :
    db_create engNoPool execFailOracle
      = ⟨.error (.operationalError ("create database " ++ engNoPool.database
          ++ ", error: "
          ++ DriverExc.msg (.otherError "permission denied to create database"))),
         false⟩ :=
  (db_create_failure_behavior engNoPool execFailOracle).1
    (.otherError "permission denied to create database") rfl

/-- Concrete commit failure used to exercise the commit-raises exit path. -/
def commitBoom : PyExc := .driver (.otherError "could not serialize access")

/-- C2 (counterexample): at a concrete active context whose body completed
normally but whose commit raises, the exit actions do not run: the context
is not marked done, the local connection reference is not cleared, the
registry still binds the name, and neither the registry unbind nor the pool
release is performed — refuting "all exit actions run regardless of the
commit outcome". -/
theorem aexit_commit_failure_skips_teardown :
    (aexit ctxActive regDb none none (some commitBoom)).ctx.done = false ∧
    (aexit ctxActive regDb none none (some commitBoom)).ctx.connection
      = some 7 ∧
    (aexit ctxActive regDb none none (some commitBoom)).reg.get "db"
      = some 7 ∧
    Event.registryReset "db"
      ∉ (aexit ctxActive regDb none none (some commitBoom)).events ∧
    Event.poolRelease 7
      ∉ (aexit ctxActive regDb none none (some commitBoom)).events :=
  ⟨rfl, rfl, rfl, by decide, by decide⟩

/-- C2 (amended): on every context exit in which the body raised, or in
which commit succeeded, all exit actions run in source order — mark done,
clear the local connection reference, remove the registry binding via the
restore token, release the connection to the pool — with the registry
unbind strictly before the pool release; when the body completed normally
and commit raises, the commit exception propagates and none of these exit
actions run (see the counterexample). -/
theorem aexit_teardown_order (ctx : PooledTransactionContext) (reg : Registry)
    (bodyExc rollbackExc commitExc : Option PyExc)
    (h : bodyExc.isSome = true ∨ commitExc = none) :
    (aexit ctx reg bodyExc rollbackExc commitExc).ctx.done = true ∧
    (aexit ctx reg bodyExc rollbackExc commitExc).ctx.connection = none ∧
    (aexit ctx reg bodyExc rollbackExc commitExc).reg
      = reg.reset ctx.name (ctx.token.getD none) ∧
    (aexit ctx reg bodyExc rollbackExc commitExc).events.drop 1
      = [.markDone, .clearConnection, .registryReset ctx.name,
         .poolRelease (ctx.connection.getD 0)] := by
  cases bodyExc with
  | some e => exact ⟨rfl, rfl, rfl, rfl⟩
  | none =>
    cases commitExc with
    | some ce =>
        rcases h with h | h
        · simp at h
        · exact absurd h (by simp)
    | none => exact ⟨rfl, rfl, rfl, rfl⟩

/-- C2 (witness): the amended teardown property at a concrete active
context whose body completed and whose commit succeeded. -/
theorem aexit_teardown_order_witness :
    (aexit ctxActive regDb none none none).ctx.done = true ∧
    (aexit ctxActive regDb none none none).ctx.connection = none ∧
    (aexit ctxActive regDb none none none).reg
      = regDb.reset ctxActive.name (ctxActive.token.getD none) ∧
    (aexit ctxActive regDb none none none).events.drop 1
      = [.markDone, .clearConnection, .registryReset ctxActive.name,
         .poolRelease (ctxActive.connection.getD 0)] :=
  aexit_teardown_order ctxActive regDb none none none (Or.inr rfl)

/-- Bootstrap-execute oracle on which every statement succeeds. -/
def execOkOracle : String → Except DriverExc String :=
  fun _ => .ok "CREATE DATABASE"

/-- C3 (counterexample): at a concrete engine with no pool and auto-create
disabled, a first pool-creation attempt failing with
`InvalidCatalogNameError` (database does not exist) is silently swallowed:
`_create_pool` returns normally with the pool still unset, and no
`DBConnectionError` is raised — refuting "if auto-create is disabled, a
DBConnectionError naming the database is raised". -/
theorem create_pool_no_autocreate_swallows_missing_db :
    _create_pool engNoPool false
        (.error (.invalidCatalogNameError "database \"test_db\" does not exist"))
        execOkOracle (.ok 1)
      = .ok engNoPool ∧
    engNoPool.pool = none :=
  ⟨rfl, rfl⟩

/-- C3 (amended): for every engine with no pool yet: a successful first
attempt installs the pool; on `InvalidCatalogNameError` with auto-create
enabled, the database is created over the bootstrap connection and pool
creation is retried exactly once, a retry failure propagating as the raw
driver exception and a `db_create` failure propagating as its
OperationalError; on `InvalidCatalogNameError` with auto-create disabled,
the failure is silently swallowed and the engine is returned with the pool
still unset (no DBConnectionError); any other first-attempt failure raises
`DBConnectionError` naming the database. -/
theorem create_pool_behavior (e : PostgresEngine)
    (exec : String → Except DriverExc String)
    (retryAttempt : Except DriverExc Nat) (hpool : e.pool = none) :
    (∀ p, _create_pool e true (.ok p) exec retryAttempt
        = .ok { e with pool := some p }) ∧
    (∀ m, (db_create e exec).result = .ok () →
       _create_pool e true (.error (.invalidCatalogNameError m)) exec
           retryAttempt
         = match retryAttempt with
           | .ok p => .ok { e with pool := some p }
           | .error exc => .error (.driver exc)) ∧
    (∀ m exc, (db_create e exec).result = .error exc →
       _create_pool e true (.error (.invalidCatalogNameError m)) exec
           retryAttempt = .error exc) ∧
    (∀ m, _create_pool e false (.error (.invalidCatalogNameError m)) exec
        retryAttempt = .ok e) ∧
    (∀ exc, (∀ m, exc ≠ .invalidCatalogNameError m) →
       _create_pool e (.true) (.error exc) exec retryAttempt
         = .error (.dbConnectionError
             ("Can't establish connection to database " ++ e.database))) := by
  have hs : e.pool.isSome = false := by rw [hpool]; rfl
  refine ⟨?_, ?_, ?_, ?_, ?_⟩
  · intro p
    unfold _create_pool
    rw [hs]
    rfl
  · intro m hdb
    unfold _create_pool
    rw [hs]
    simp only [Bool.false_eq_true, if_false, if_true]
    rw [hdb]
  · intro m exc hdb
    unfold _create_pool
    rw [hs]
    simp only [Bool.false_eq_true, if_false, if_true]
    rw [hdb]
  · intro m
    unfold _create_pool
    rw [hs]
    rfl
  · intro exc hexc
    unfold _create_pool
    rw [hs]
    cases exc with
    | invalidCatalogNameError m => exact absurd rfl (hexc m)
    | synOrAccessError m => rfl
    | integrityConstraintViolationError m => rfl
    | invalidTransactionStateError m => rfl
    | otherError m => rfl

/-- C3 (witness): the amended pool-creation behavior at a concrete engine —
the auto-create retry path succeeds after one create-database round trip,
and a non-catalog failure raises DBConnectionError naming "test_db". -/
theorem create_pool_behavior_witness :
    _create_pool engNoPool true
        (.error (.invalidCatalogNameError "database \"test_db\" does not exist"))
        execOkOracle (.ok 1)
      = .ok { engNoPool with pool := some 1 } ∧
    _create_pool engNoPool true
        (.error (.otherError "connection refused")) execOkOracle (.ok 1)
      = .error (.dbConnectionError
          ("Can't establish connection to database " ++ engNoPool.database)) := by
  constructor
  · exact (create_pool_behavior engNoPool execOkOracle (.ok 1) rfl).2.1
      "database \"test_db\" does not exist" rfl
  · exact (create_pool_behavior engNoPool execOkOracle (.ok 1) rfl).2.2.2.2
      (.otherError "connection refused") (fun m h => by cases h)

/-- C4: the router never completes pool creation.  For every engine whose
pool is absent and whose logical name has no registry binding,
`acquire_connection` leaves the engine unchanged — the un-awaited
`self._create_pool()` coroutine never runs, so the pool is still absent —
and the acquisition itself fails with `AttributeError` from
`None.acquire`, the failing behavior the spec flags as the latent bug. -/
theorem acquire_connection_unawaited_pool_creation (e : PostgresEngine)
    (reg : Registry) (timeout : Option Nat) (hpool : e.pool = none)
    (hreg : reg.get e.name = none) :
    acquire_connection e reg timeout
      = (.error (.attributeError "'NoneType' object has no attribute 'acquire'"),
         e) ∧
    (acquire_connection e reg timeout).2.pool = none := by
  have h1 : acquire_connection e reg timeout
      = (.error (.attributeError "'NoneType' object has no attribute 'acquire'"),
         e) := by
    unfold acquire_connection currentTransactedConn
    rw [hreg, hpool]
  exact ⟨h1, by rw [h1]; exact hpool⟩

/-- C4 (witness): the failing input evaluated concretely — engine for
"test_db" with no pool, empty registry. -/
theorem acquire_connection_unawaited_pool_creation_witness :
    acquire_connection engNoPool Registry.empty none
      = (.error (.attributeError "'NoneType' object has no attribute 'acquire'"),
         engNoPool) :=
  (acquire_connection_unawaited_pool_creation engNoPool Registry.empty none
    rfl rfl).1

/-- Concrete driver connection whose `execute` reports status "UPDATE 3"
and whose `fetch` returns two rows. -/
def connUpdate3 : DriverConn String :=
  ⟨fun _ => "UPDATE 3", fun _ => ["r1", "r2"]⟩

/-- C5: for every query, values list and driver connection, `execute_query`
returns `(rows_affected, [])` when the query text begins with the literal
case-sensitive prefix UPDATE or DELETE, where `rows_affected` is parsed
from the second space-delimited token of the driver's status string and is
0 whenever that token is missing or is not an integer (the parse never
raises); for every other query it fetches all rows and returns
`(len(rows), rows)`. -/
theorem execute_query_result_shape {Row : Type} (conn : DriverConn Row)
    (query : String) (values : Option (List String)) (s : String) :
    ((pyStartsWith query "UPDATE" || pyStartsWith query "DELETE") = true →
       execute_query conn query values
         = (parseRowsAffected
              (conn.executeStatus (execQueryParams query values)), [])) ∧
    ((pyStartsWith query "UPDATE" || pyStartsWith query "DELETE") = false →
       execute_query conn query values
         = (((conn.fetchRows (execQueryParams query values)).length : Int),
            conn.fetchRows (execQueryParams query values))) ∧
    (∀ tok, (pySplitOnSpace s).get? 1 = some tok →
       parseRowsAffected s = (pyInt tok).getD 0) ∧
    ((pySplitOnSpace s).get? 1 = none → parseRowsAffected s = 0) := by
  refine ⟨?_, ?_, ?_, ?_⟩
  · intro h
    simp [execute_query, h]
  · intro h
    simp [execute_query, h]
  · intro tok htok
    simp only [parseRowsAffected]
    rw [htok]
    cases hpi : pyInt tok <;> simp [hpi]
  · intro hnone
    simp only [parseRowsAffected]
    rw [hnone]

/-- C5 (witness): the result shape evaluated at a concrete connection — an
UPDATE statement whose status parses to 3, the parse of the token "3", a
SELECT returning its two fetched rows, and the concrete UPDATE result. -/
theorem execute_query_result_shape_witness :
    execute_query connUpdate3 "UPDATE t SET x=1" none
      = (parseRowsAffected
           (connUpdate3.executeStatus
             (execQueryParams "UPDATE t SET x=1" none)), []) ∧
    parseRowsAffected "UPDATE 3" = (pyInt "3").getD 0 ∧
    execute_query connUpdate3 "SELECT * FROM t" none
      = (((connUpdate3.fetchRows
            (execQueryParams "SELECT * FROM t" none)).length : Int),
         connUpdate3.fetchRows (execQueryParams "SELECT * FROM t" none)) ∧
    execute_query connUpdate3 "UPDATE t SET x=1" none = (3, []) :=
  ⟨(execute_query_result_shape connUpdate3 "UPDATE t SET x=1" none
      "UPDATE 3").1 (by decide),
   (execute_query_result_shape connUpdate3 "UPDATE t SET x=1" none
      "UPDATE 3").2.2.1 "3" (by decide),
   (execute_query_result_shape connUpdate3 "SELECT * FROM t" none
      "UPDATE 3").2.1 (by decide),
   by decide⟩

/-- C6: for each of the five query-surface operations, a driver exception
raised inside it surfaces as `translateErr` of that exception, and
`translateErr` maps a syntax-or-access error to OperationalError, an
integrity-constraint violation to IntegrityError, an
invalid-transaction-state error to TransactionManagementError, and leaves
every other driver exception to propagate unchanged (never wrapped). -/
theorem query_surface_error_translation (Row Dict : Type)
    (conn : DriverConn Row) (query : String) (values : Option (List String))
    (toDict : Row → Dict) (e : DriverExc) :
    execute_insert (.error e : Except DriverExc (Option Row))
      = .error (translateErr e) ∧
    execute_many (.error e) = .error (translateErr e) ∧
    execute_query_op conn query values (some e) = .error (translateErr e) ∧
    execute_query_dict toDict (.error e) = .error (translateErr e) ∧
    execute_script (.error e) = .error (translateErr e) ∧
    (∀ m, translateErr (.synOrAccessError m) = .operationalError m) ∧
    (∀ m, translateErr (.integrityConstraintViolationError m)
       = .integrityError m) ∧
    (∀ m, translateErr (.invalidTransactionStateError m)
       = .transactionManagementError m) ∧
    (∀ m, translateErr (.invalidCatalogNameError m)
       = .driver (.invalidCatalogNameError m)) ∧
    (∀ m, translateErr (.otherError m) = .driver (.otherError m)) := by
  have ht : ∀ (α : Type),
      translate_exceptions (.error e : Except DriverExc α)
        = .error (translateErr e) := by
    intro α
    cases e <;> rfl
  exact ⟨ht _, ht _, ht _, ht _, ht _, fun _ => rfl, fun _ => rfl,
         fun _ => rfl, fun _ => rfl, fun _ => rfl⟩

/-- Events performed by a context enter, or the empty list when the enter
guard fails. -/
def aenterEvents (ctx : PooledTransactionContext) (reg : Registry)
    (acquired : Nat) : List Event :=
  match aenter ctx reg acquired with
  | .ok r => r.2.2.2
  | .error _ => []

/-- The enter-step ordering asserted by the claim: connection acquired,
then the transaction started on it, then the connection wrapped in the
proxy, then the proxy published into the registry. -/
def claimedEnterOrder (evs : List Event) (name : String) (c : Nat) : Prop :=
  evs.indexOf (.poolAcquire c) < evs.indexOf (.txnStart c) ∧
  evs.indexOf (.txnStart c) < evs.indexOf (.wrapProxy c) ∧
  evs.indexOf (.wrapProxy c) < evs.indexOf (.registrySet name c)

/-- C8 (counterexample): at a concrete fresh context the enter step's
actual trace is acquire, create-transaction, wrap, publish, start — the
transaction is started only after the proxy is wrapped and published
(source lines 48-50), so the order asserted by the claim (acquired, then
started, then wrapped, then published) does not hold of it: the start event
does not precede the wrap event. -/
theorem aenter_start_not_before_publish :
    aenterEvents (PooledTransactionContext.mk0 "db" none) Registry.empty 5
      = [.poolAcquire 5, .txnCreate 5, .wrapProxy 5, .registrySet "db" 5,
         .txnStart 5] ∧
    ¬ claimedEnterOrder
        (aenterEvents (PooledTransactionContext.mk0 "db" none)
          Registry.empty 5) "db" 5 := by
  constructor
  · rfl
  · unfold claimedEnterOrder
    decide

/-- C8 (amended): on entering a fresh pooled transaction context the steps
occur in this order: the physical connection is acquired from the pool, the
transaction object is created on it, the connection is wrapped in a proxy
flagged as already transacted, the proxy is published into the registry
under the logical name, and only then is the transaction started — all
before the context body begins; the proxy (wrapping the acquired
connection) is what is returned, the registry afterwards binds the logical
name to it, and any engine acquisition under that name while the binding
is live is routed to this same connection. -/
theorem aenter_order_and_publish (ctx : PooledTransactionContext)
    (reg : Registry) (c : Nat) (hconn : ctx.connection = none)
    (hdone : ctx.done = false) :
    aenter ctx reg c
      = .ok ({ ctx with connection := some c, transaction := some c,
                        token := some (reg.get ctx.name) },
             (reg.set ctx.name c).1, ⟨c, true⟩,
             [.poolAcquire c, .txnCreate c, .wrapProxy c,
              .registrySet ctx.name c, .txnStart c]) ∧
    ((reg.set ctx.name c).1).get ctx.name = some c ∧
    (∀ (e : PostgresEngine) (t : Option Nat), e.name = ctx.name →
       (acquire_connection e ((reg.set ctx.name c).1) t).1
         = .ok (.transactedWrapper c)) := by
  refine ⟨?_, ?_, ?_⟩
  · unfold aenter
    rw [hconn, hdone]
    rfl
  · unfold Registry.set Registry.get
    simp
  · intro e t hname
    unfold acquire_connection currentTransactedConn Registry.get Registry.set
    rw [hname]
    simp

/-- C8 (witness): the amended enter behavior evaluated at a concrete fresh
context for "db", acquiring connection 5, with the concrete engine routed
to that connection. -/
theorem aenter_order_and_publish_witness :
    aenter (PooledTransactionContext.mk0 "db" none) Registry.empty 5
      = .ok ({ (PooledTransactionContext.mk0 "db" none) with
               connection := some 5, transaction := some 5,
               token := some (Registry.empty.get "db") },
             (Registry.empty.set "db" 5).1, ⟨5, true⟩,
             [.poolAcquire 5, .txnCreate 5, .wrapProxy 5,
              .registrySet "db" 5, .txnStart 5]) ∧
    (acquire_connection engNoPool ((Registry.empty.set "db" 5).1) none).1
      = .ok (.transactedWrapper 5) :=
  ⟨(aenter_order_and_publish (PooledTransactionContext.mk0 "db" none)
      Registry.empty 5 rfl rfl).1,
   (aenter_order_and_publish (PooledTransactionContext.mk0 "db" none)
      Registry.empty 5 rfl rfl).2.2 engNoPool none rfl⟩

end Postmodel
